import Mathlib

/-!
Verification of the Zabbix trapper sender in
`src/GyBmeP280ToZabbix/GyBmeP280ToZabbix.ino` (function `zabbix_sender`).

The sketch builds a JSON payload out of four sensor value strings, frames it
with the `ZBXD\x01` preamble and an 8-byte length field, writes the frame to a
TCP client, and waits (bounded by `ResponseTimeout`) for a reply.  We embed the
sender as a pure function from the four value strings and a network
environment (connect result, the memory bytes that follow `txtHeader`, the
`millis()` clock and `client.available()` observations) to an outcome together
with a trace of network events.
-/

namespace GyBmeP280ToZabbix

/-- `const String clientHostName = "Arduino";` -/
def clientHostName : String := "Arduino"

/-- `const String Gybmep280temperatureItemName = "Gybmep280.Temperature";` -/
def Gybmep280temperatureItemName : String := "Gybmep280.Temperature"

/-- `const String Gybmep280HumidityItemName = "Gybmep280.Humidity";` -/
def Gybmep280HumidityItemName : String := "Gybmep280.Humidity"

/-- `const String Gybmep280PressureItemName = "Gybmep280.Pressure";` -/
def Gybmep280PressureItemName : String := "Gybmep280.Pressure"

/-- `const String Gybmep280AltitudeItemName = "Gybmep280.Altitude";` -/
def Gybmep280AltitudeItemName : String := "Gybmep280.Altitude"

/-- `const unsigned long ResponseTimeout = 10000;` (milliseconds). -/
def ResponseTimeout : Nat := 10000

/-- The four sensor readings of one cycle, already rendered to strings the way
the sketch does with `String(double)` (steps 1-2 of `zabbix_sender`).  Field
order is the capture order of lines 114-117: temperature, humidity, pressure,
altitude. -/
structure Readings where
  temperature : String
  humidity : String
  pressure : String
  altitude : String
deriving DecidableEq

/-- The JSON header literal of line 129: an opening brace, the quoted
`request` field with value `sender data`, and the opening of the `data`
array, with the sketch's spacing. -/
def zabbixMessagePayloadHeader : String := "\x7b \"request\":\"sender data\", \"data\":[ "

/-- `zabbixMessagePayloadPart1`: the humidity item (first item, no leading comma). -/
def zabbixMessagePayloadPart1 (r : Readings) : String :=
  "\x7b\"host\":\"" ++ clientHostName ++ "\",\"key\":\"" ++ Gybmep280HumidityItemName ++
    "\",\"value\":\"" ++ r.humidity ++ "\"\x7d "

/-- `zabbixMessagePayloadPart2`: the pressure item, with leading `", "`. -/
def zabbixMessagePayloadPart2 (r : Readings) : String :=
  ", \x7b\"host\":\"" ++ clientHostName ++ "\",\"key\":\"" ++ Gybmep280PressureItemName ++
    "\",\"value\":\"" ++ r.pressure ++ "\"\x7d "

/-- `zabbixMessagePayloadPart3`: the altitude item, with leading `", "`. -/
def zabbixMessagePayloadPart3 (r : Readings) : String :=
  ", \x7b\"host\":\"" ++ clientHostName ++ "\",\"key\":\"" ++ Gybmep280AltitudeItemName ++
    "\",\"value\":\"" ++ r.altitude ++ "\"\x7d "

/-- `zabbixMessagePayloadPart4`: the temperature item, with leading `", "`. -/
def zabbixMessagePayloadPart4 (r : Readings) : String :=
  ", \x7b\"host\":\"" ++ clientHostName ++ "\",\"key\":\"" ++ Gybmep280temperatureItemName ++
    "\",\"value\":\"" ++ r.temperature ++ "\"\x7d "

/-- `String zabbixMessagePayloadFooter = "] }";` -/
def zabbixMessagePayloadFooter : String := "] \x7d"

/-- `int payloadLenght = ...` — the sum of the six part lengths (the sketch's
spelling is kept).  Arduino `String::length()` counts bytes; we count `Char`s,
which agrees on the single-byte strings the sketch produces. -/
def payloadLenght (r : Readings) : Nat :=
  zabbixMessagePayloadHeader.length +
    (zabbixMessagePayloadPart1 r).length +
    (zabbixMessagePayloadPart2 r).length +
    (zabbixMessagePayloadPart3 r).length +
    (zabbixMessagePayloadPart4 r).length +
    zabbixMessagePayloadFooter.length

/-- The serialized JSON payload: the six parts printed back to back by step
3.4 of `zabbix_sender` (the sketch never concatenates them into one variable,
but prints them contiguously with `client.print`). -/
def zabbixPayload (r : Readings) : String :=
  zabbixMessagePayloadHeader ++
    zabbixMessagePayloadPart1 r ++
    zabbixMessagePayloadPart2 r ++
    zabbixMessagePayloadPart3 r ++
    zabbixMessagePayloadPart4 r ++
    zabbixMessagePayloadFooter

/-- `char txtHeader[5] = {'Z', 'B', 'X', 'D', 1};` as byte values.  Note the
array holds exactly these five bytes and no NUL terminator. -/
def txtHeaderBytes : List Nat := [90, 66, 88, 68, 1]

/-- C-string semantics of `Print::print(const char *)`: the bytes written are
those up to (excluding) the first zero byte, scanning onward through whatever
memory follows if no zero byte occurs in the array itself. -/
def cStringBytes : List Nat → List Nat
  | [] => []
  | b :: bs => if b = 0 then [] else b :: cStringBytes bs

/-- The `(byte)` cast applied by `client.write((byte)firstLengthByte)` etc. -/
def byteOf (n : Nat) : Nat := n % 256

/-- The 8-byte length field written in step 3.3, produced by the branch at
lines 168-181: `none` models the oversize early return
(`payloadLenght >= 65536`), otherwise the bytes
`first, second, 0, 0, 0, 0, 0, 0` with
`second = payloadLenght / 256`, `first = payloadLenght % 256` when
`payloadLenght >= 256`, and `second = 0`, `first = payloadLenght` otherwise. -/
def lengthFieldBytes (L : Nat) : Option (List Nat) :=
  if 256 ≤ L then
    if 65536 ≤ L then none
    else some [byteOf (L % 256), byteOf (L / 256), 0, 0, 0, 0, 0, 0]
  else some [byteOf L, byteOf 0, 0, 0, 0, 0, 0, 0]

/-- Bytes of a string, one per `Char` (the sketch's strings are ASCII). -/
def strBytes (s : String) : List Nat := s.data.map Char.toNat

/-- Network events performed by one call of `zabbix_sender`. -/
inductive Ev
  | connect
  | printChars (bs : List Nat)
  | writeByte (b : Nat)
  | close
deriving DecidableEq

/-- Terminal outcomes of one call of `zabbix_sender`.  `stuck` is the fuel
artifact standing for the unbounded spin of the polling loop when neither data
nor the deadline arrives within the supplied fuel. -/
inductive Outcome
  | acknowledged
  | timedOut
  | connectionFailed
  | oversizedPayload
  | stuck
deriving DecidableEq

/-- The environment one call observes: whether `client.connect` returns 1, the
memory bytes that happen to follow `txtHeader` (scanned by `client.print`
because the array is not NUL-terminated), the `millis()` value at its
successive calls (call 0 is `timeout = millis()`), and `client.available()`
at the successive polls of the wait loop. -/
structure Net where
  connectOk : Bool
  afterHeaderMem : List Nat
  clock : Nat → Nat
  availableAt : Nat → Nat

/-- The wait loop of step 3.5: at poll `j` it checks `client.available()`;
when zero it compares `millis() - timeout` against `ResponseTimeout` and
either returns (timed out, index of the deciding `millis` call) or polls
again.  Returns `some (false, j)` when data arrived at poll `j`, `none` when
the fuel ran out. -/
def awaitResponse (clock avail : Nat → Nat) (t0 : Nat) : Nat → Nat → Option (Bool × Nat)
  | 0, _ => none
  | fuel + 1, j =>
    if avail j ≠ 0 then some (false, j)
    else if ResponseTimeout < clock (j + 1) - t0 then some (true, j + 1)
    else awaitResponse clock avail t0 fuel (j + 1)

/-- Shallow embedding of `zabbix_sender` (lines 112-245), from the point where
the payload parts are built: connect, print `txtHeader`, branch on
`payloadLenght` (early return on `>= 65536`, without `client.stop()`), write
the eight length bytes, print the six payload parts, run the wait loop
(`client.stop(); return` on timeout), read the response, and fall through to
the final `client.stop()`.  The failed-connect branch also falls through to
that final `client.stop()`. -/
def zabbix_sender (r : Readings) (net : Net) (fuel : Nat) : Outcome × List Ev :=
  if net.connectOk then
    let ev0 : List Ev :=
      [Ev.connect, Ev.printChars (cStringBytes (txtHeaderBytes ++ net.afterHeaderMem))]
    match lengthFieldBytes (payloadLenght r) with
    | none => (Outcome.oversizedPayload, ev0)
    | some lenBytes =>
      let ev2 : List Ev := ev0 ++ lenBytes.map Ev.writeByte ++
        [Ev.printChars (strBytes zabbixMessagePayloadHeader),
         Ev.printChars (strBytes (zabbixMessagePayloadPart1 r)),
         Ev.printChars (strBytes (zabbixMessagePayloadPart2 r)),
         Ev.printChars (strBytes (zabbixMessagePayloadPart3 r)),
         Ev.printChars (strBytes (zabbixMessagePayloadPart4 r)),
         Ev.printChars (strBytes zabbixMessagePayloadFooter)]
      match awaitResponse net.clock net.availableAt (net.clock 0) fuel 0 with
      | none => (Outcome.stuck, ev2)
      | some (true, _) => (Outcome.timedOut, ev2 ++ [Ev.close])
      | some (false, _) => (Outcome.acknowledged, ev2 ++ [Ev.close])
  else
    (Outcome.connectionFailed, [Ev.close])

/-- The bytes put on the wire by a trace, in order. -/
def writtenBytes : List Ev → List Nat
  | [] => []
  | Ev.printChars bs :: rest => bs ++ writtenBytes rest
  | Ev.writeByte b :: rest => b :: writtenBytes rest
  | Ev.connect :: rest => writtenBytes rest
  | Ev.close :: rest => writtenBytes rest

/-! ### The payload builder, generalized over its input sequence

The sketch hard-wires four items.  To state order properties we abstract its
concatenation pattern over an arbitrary host and item list: the first item is
rendered without a separator and every later item with a leading `", "`,
exactly as `zabbixMessagePayloadPart1` versus parts 2-4 do.  The lemma
`zabbixPayload_eq_buildPayload` below ties this generalization back to the
source's literal concatenation. -/

/-- One data item as part 1 renders it (no leading comma, trailing space). -/
def itemText (host key value : String) : String :=
  "\x7b\"host\":\"" ++ host ++ "\",\"key\":\"" ++ key ++ "\",\"value\":\"" ++ value ++ "\"\x7d "

/-- One data item as parts 2-4 render it (leading `", "`, trailing space). -/
def itemRest (host key value : String) : String :=
  ", \x7b\"host\":\"" ++ host ++ "\",\"key\":\"" ++ key ++ "\",\"value\":\"" ++ value ++ "\"\x7d "

/-- Renders every item of the tail of the sequence, in order. -/
def joinRest (host : String) : List (String × String) → String
  | [] => ""
  | it :: rest => itemRest host it.1 it.2 ++ joinRest host rest

/-- Renders an item sequence, in order: head without separator, tail with. -/
def joinItems (host : String) : List (String × String) → String
  | [] => ""
  | it :: rest => itemText host it.1 it.2 ++ joinRest host rest

/-- The payload for a host and an ordered sequence of `(key, value)` items. -/
def buildPayload (host : String) (items : List (String × String)) : String :=
  zabbixMessagePayloadHeader ++ joinItems host items ++ zabbixMessagePayloadFooter

/-! ### Value rendering -/

/-- Decimal text of a value given in hundredths: integer part, a dot, and the
two-digit fractional part. -/
def renderCentiNat (n : Nat) : String :=
  Nat.repr (n / 100) ++ "." ++
    (if n % 100 < 10 then "0" ++ Nat.repr (n % 100) else Nat.repr (n % 100))

/-- Hundredths of a nonnegative rational, rounded to nearest (half up):
`⌊q * 100 + 1/2⌋` computed on numerator and denominator. -/
def centiNat (q : ℚ) : Nat := (q.num.toNat * 200 + q.den) / (2 * q.den)

/-- Modelled from the spec: the Arduino core's `String(double)` conversion used
at lines 129-134 (the core library is not part of `src/`), which renders with
the default two decimal places, rounding to the nearest hundredth, half away
from zero.  Readings are modelled as rationals. -/
def render (q : ℚ) : String :=
  if q < 0 then "-" ++ renderCentiNat (centiNat (-q)) else renderCentiNat (centiNat q)

/-- The whole frame the sender writes for a given serialized payload, when the
length is encodable: preamble, 8-byte length field, payload bytes, following
the write sequence of steps 3.2-3.4. -/
def frameFor (p : String) : Option (List Nat) :=
  (lengthFieldBytes p.length).map (fun f => txtHeaderBytes ++ f ++ strBytes p)

/-! ### Concrete inputs used by counterexamples and witnesses -/

/-- Readings with small distinct values (as `String(double)` renders them). -/
def r0 : Readings :=
  { temperature := "1.00", humidity := "2.00", pressure := "3.00", altitude := "4.00" }

/-- A 66000-character value string, to drive the payload length past 65535. -/
def bigValue : String := String.mk (List.replicate 66000 'a')

/-- Readings whose payload length is 66288, past the encoder's ceiling. -/
def rBig : Readings :=
  { temperature := "1.00", humidity := bigValue, pressure := "1.00", altitude := "1.00" }

/-- Environment: connect succeeds, a zero byte follows `txtHeader` in memory,
and the peer answers at the first poll. -/
def netA : Net :=
  { connectOk := true, afterHeaderMem := [0], clock := fun _ => 0, availableAt := fun _ => 1 }

/-- Environment: connect succeeds, a zero byte follows `txtHeader`, the peer
never sends, and the clock advances 20000 ms per `millis()` call. -/
def netT : Net :=
  { connectOk := true, afterHeaderMem := [0], clock := fun k => 20000 * k,
    availableAt := fun _ => 0 }

/-- Environment: connect succeeds and the byte following `txtHeader` in memory
is 65 (nonzero), then 0. -/
def netG : Net :=
  { connectOk := true, afterHeaderMem := [65, 0], clock := fun _ => 0,
    availableAt := fun _ => 1 }

/-! ### Helper lemmas -/

/-- The source's literal six-part concatenation is the generalized builder
applied to the host and the item sequence humidity, pressure, altitude,
temperature — in that order. -/
theorem zabbixPayload_eq_buildPayload (r : Readings) :
    zabbixPayload r = buildPayload clientHostName
      [(Gybmep280HumidityItemName, r.humidity),
       (Gybmep280PressureItemName, r.pressure),
       (Gybmep280AltitudeItemName, r.altitude),
       (Gybmep280temperatureItemName, r.temperature)] := by
  apply String.ext
  simp [zabbixPayload, buildPayload, joinItems, joinRest, itemText, itemRest,
        zabbixMessagePayloadPart1, zabbixMessagePayloadPart2, zabbixMessagePayloadPart3,
        zabbixMessagePayloadPart4, List.append_assoc]

/-- The payload length is the fixed skeleton length plus the four value
string lengths. -/
theorem payloadLenght_formula (r : Readings) :
    payloadLenght r = payloadLenght ⟨"", "", "", ""⟩ + r.humidity.length +
      r.pressure.length + r.altitude.length + r.temperature.length := by
  have h0 : ("" : String).length = 0 := by decide
  unfold payloadLenght zabbixMessagePayloadPart1 zabbixMessagePayloadPart2
    zabbixMessagePayloadPart3 zabbixMessagePayloadPart4
  simp only [String.length_append]
  omega

theorem bigValue_length : bigValue.length = 66000 := by
  simp only [bigValue, String.mk_length, List.length_replicate]

theorem payloadLenght_rBig_ge : 65536 ≤ payloadLenght rBig := by
  have h := payloadLenght_formula rBig
  have hb : rBig.humidity = bigValue := rfl
  have hfix : payloadLenght ⟨"", "", "", ""⟩ = 276 := by decide
  rw [hb, bigValue_length, hfix] at h
  rw [h]
  omega

/-- Below the ceiling the length field is `first = L % 256`,
`second = L / 256`, six zero bytes — in the low branch `first = L` and
`second = 0`, which agree with that form. -/
theorem lengthField_spec (L : Nat) (h : L < 65536) :
    lengthFieldBytes L = some [L % 256, L / 256, 0, 0, 0, 0, 0, 0] := by
  simp only [lengthFieldBytes, byteOf]
  split
  · split
    · omega
    · simp only [Option.some.injEq, List.cons.injEq, and_true, true_and]
      omega
  · simp only [Option.some.injEq, List.cons.injEq, and_true, true_and]
    omega

theorem writtenBytes_append (a b : List Ev) :
    writtenBytes (a ++ b) = writtenBytes a ++ writtenBytes b := by
  induction a with
  | nil => rfl
  | cons e rest ih => cases e <;> simp [writtenBytes, ih]

/-- When the byte following `txtHeader` in memory is zero, `client.print`
emits exactly the five preamble bytes. -/
theorem cString_txtHeader (t : List Nat) :
    cStringBytes (txtHeaderBytes ++ 0 :: t) = txtHeaderBytes := by
  simp [txtHeaderBytes, cStringBytes]

theorem strBytes_append (s t : String) :
    strBytes (s ++ t) = strBytes s ++ strBytes t := by
  simp [strBytes]

theorem strBytes_length (s : String) : (strBytes s).length = s.length := by
  simp [strBytes]

/-- The length the sketch computes as the sum of the six part lengths equals
the length of the payload it prints. -/
theorem payloadLenght_eq_length (r : Readings) :
    payloadLenght r = (zabbixPayload r).length := by
  simp [payloadLenght, zabbixPayload, String.length_append]

/-- When the connection succeeds and the payload is oversized, the call
returns right after the preamble print: outcome `oversizedPayload`, trace
`connect` then the preamble print, and nothing else — no length byte, no
payload print, no close. -/
theorem oversized_run (r : Readings) (net : Net) (fuel : Nat)
    (hc : net.connectOk = true) (hL : 65536 ≤ payloadLenght r) :
    zabbix_sender r net fuel =
      (Outcome.oversizedPayload,
        [Ev.connect, Ev.printChars (cStringBytes (txtHeaderBytes ++ net.afterHeaderMem))]) := by
  have hf : lengthFieldBytes (payloadLenght r) = none := by
    simp only [lengthFieldBytes]
    rw [if_pos (by omega : 256 ≤ payloadLenght r), if_pos hL]
  simp [zabbix_sender, hc, hf]

/-- The events of a connected, not-oversized call up to the wait loop:
connect, preamble print, the eight length-byte writes, the six payload part
prints. -/
def evFrame (r : Readings) (net : Net) : List Ev :=
  [Ev.connect, Ev.printChars (cStringBytes (txtHeaderBytes ++ net.afterHeaderMem))] ++
    ([payloadLenght r % 256, payloadLenght r / 256, 0, 0, 0, 0, 0, 0].map Ev.writeByte) ++
    [Ev.printChars (strBytes zabbixMessagePayloadHeader),
     Ev.printChars (strBytes (zabbixMessagePayloadPart1 r)),
     Ev.printChars (strBytes (zabbixMessagePayloadPart2 r)),
     Ev.printChars (strBytes (zabbixMessagePayloadPart3 r)),
     Ev.printChars (strBytes (zabbixMessagePayloadPart4 r)),
     Ev.printChars (strBytes zabbixMessagePayloadFooter)]

/-- A connected, not-oversized call writes the whole frame and then behaves
according to the wait loop's verdict. -/
theorem connected_run (r : Readings) (net : Net) (fuel : Nat)
    (hc : net.connectOk = true) (hL : payloadLenght r < 65536) :
    zabbix_sender r net fuel =
      match awaitResponse net.clock net.availableAt (net.clock 0) fuel 0 with
      | none => (Outcome.stuck, evFrame r net)
      | some (true, _) => (Outcome.timedOut, evFrame r net ++ [Ev.close])
      | some (false, _) => (Outcome.acknowledged, evFrame r net ++ [Ev.close]) := by
  have hf := lengthField_spec (payloadLenght r) hL
  simp only [zabbix_sender, hc, hf, if_true, evFrame]

/-- The bytes of the frame events: preamble bytes, the eight length bytes,
then exactly the payload bytes. -/
theorem writtenBytes_evFrame (r : Readings) (net : Net) :
    writtenBytes (evFrame r net) =
      cStringBytes (txtHeaderBytes ++ net.afterHeaderMem) ++
      [payloadLenght r % 256, payloadLenght r / 256, 0, 0, 0, 0, 0, 0] ++
      strBytes (zabbixPayload r) := by
  simp [evFrame, writtenBytes, writtenBytes_append, strBytes_append, zabbixPayload,
    List.append_assoc]

/-- If the peer never has data available, the wait loop can only exit by the
deadline check: the verdict is a timeout whose deciding `millis()` reading
exceeds `t0 + ResponseTimeout`. -/
theorem awaitResponse_all_zero (clock avail : Nat → Nat) (t0 : Nat)
    (hav : ∀ i, avail i = 0) :
    ∀ fuel j b k, awaitResponse clock avail t0 fuel j = some (b, k) →
      b = true ∧ ResponseTimeout < clock k - t0 := by
  intro fuel
  induction fuel with
  | zero => intro j b k h; simp [awaitResponse] at h
  | succ n ih =>
    intro j b k h
    simp only [awaitResponse, hav, ne_eq, not_true_eq_false, if_false] at h
    split at h
    · rename_i ht
      cases h
      exact ⟨rfl, ht⟩
    · exact ih (j + 1) b k h

/-! ### Claims -/

/-- C1 (amended): for every batch whose payload length is at least 65536 and a
successful connect, `zabbix_sender` reports the oversized-payload outcome and
writes neither length bytes nor payload bytes nor a close — but it does NOT
short-circuit before connecting: the trace opens the connection and prints the
preamble before the length check. -/
theorem C1_oversize_after_preamble (r : Readings) (net : Net) (fuel : Nat)
    (hc : net.connectOk = true) (hL : 65536 ≤ payloadLenght r) :
    (zabbix_sender r net fuel).1 = Outcome.oversizedPayload ∧
    (zabbix_sender r net fuel).2 =
      [Ev.connect, Ev.printChars (cStringBytes (txtHeaderBytes ++ net.afterHeaderMem))] := by
  rw [oversized_run r net fuel hc hL]
  exact ⟨rfl, rfl⟩

/-- C1 witness: the amended statement at the concrete 66288-byte batch. -/
theorem C1_oversize_after_preamble_witness :
    netA.connectOk = true ∧ 65536 ≤ payloadLenght rBig ∧
    ((zabbix_sender rBig netA 1).1 = Outcome.oversizedPayload ∧
     (zabbix_sender rBig netA 1).2 =
       [Ev.connect, Ev.printChars (cStringBytes (txtHeaderBytes ++ netA.afterHeaderMem))]) :=
  ⟨rfl, payloadLenght_rBig_ge,
    C1_oversize_after_preamble rBig netA 1 rfl payloadLenght_rBig_ge⟩

/-- C1 counterexample: at a 66288-byte batch the run reports
`oversizedPayload`, yet its trace contains a successful connect and a
(preamble) network write — refuting the claim that `Send` short-circuits
before `Connecting` and performs no network write at all. -/
theorem C1_counterexample_oversize_opens_and_writes :
    zabbix_sender rBig netA 1 =
      (Outcome.oversizedPayload, [Ev.connect, Ev.printChars txtHeaderBytes]) ∧
    writtenBytes [Ev.connect, Ev.printChars txtHeaderBytes] ≠ [] := by
  constructor
  · rw [oversized_run rBig netA 1 rfl payloadLenght_rBig_ge]
    rw [show netA.afterHeaderMem = [0] from rfl, cString_txtHeader]
  · decide

/-- C2: on the oversized-payload path `zabbix_sender` returns without ever
calling `client.stop()`: the trace holds zero close events, contradicting the
claim that every exit path closes the connection exactly once (every other
outcome does close exactly once; the `return` at line 174 skips it). -/
theorem C2_oversize_no_close :
    (zabbix_sender rBig netA 1).1 = Outcome.oversizedPayload ∧
    List.count Ev.close (zabbix_sender rBig netA 1).2 = 0 := by
  rw [oversized_run rBig netA 1 rfl payloadLenght_rBig_ge]
  exact ⟨rfl, by decide⟩

/-- C3 (amended): the payload builder lists items in exactly the order of its
input sequence — but the sequence the sketch hands it is humidity, pressure,
altitude, temperature, not the capture order (temperature first). -/
theorem C3_array_order_matches_builder_input (r : Readings) :
    zabbixPayload r = buildPayload clientHostName
      [(Gybmep280HumidityItemName, r.humidity),
       (Gybmep280PressureItemName, r.pressure),
       (Gybmep280AltitudeItemName, r.altitude),
       (Gybmep280temperatureItemName, r.temperature)] :=
  zabbixPayload_eq_buildPayload r

/-- C3 counterexample: with four concrete distinct values the built payload
differs from the payload whose data array lists the items in the capture
order temperature, humidity, pressure, altitude — the claimed order. -/
theorem C3_counterexample_capture_order :
    zabbixPayload r0 ≠ buildPayload clientHostName
      [(Gybmep280temperatureItemName, r0.temperature),
       (Gybmep280HumidityItemName, r0.humidity),
       (Gybmep280PressureItemName, r0.pressure),
       (Gybmep280AltitudeItemName, r0.altitude)] := by
  decide

/-- C4 counterexample: for host `Arduino` and the single measurement
`("Temp", 23.5)` the builder does not produce the claimed text — the
sketch's skeleton has spaces after the opening brace, the comma and the
bracket, a trailing space per item, and renders 23.5 as `23.50`. -/
theorem C4_counterexample_scenario :
    buildPayload "Arduino" [("Temp", render (mkRat 47 2))] ≠
      "\x7b\"request\":\"sender data\",\"data\":[\x7b\"host\":\"Arduino\",\"key\":\"Temp\",\"value\":\"23.5\"\x7d] \x7d" := by
  decide

/-- C4 (amended): for that scenario the payload is the exact text below (with
the sketch's spacing and two-decimal rendering `23.50`), the declared length
equals the byte length of the payload, and the frame is the `ZBXD\x01`
preamble, the 8-byte length field, then exactly those payload bytes. -/
theorem C4_scenario_amended :
    buildPayload "Arduino" [("Temp", render (mkRat 47 2))] =
      "\x7b \"request\":\"sender data\", \"data\":[ \x7b\"host\":\"Arduino\",\"key\":\"Temp\",\"value\":\"23.50\"\x7d ] \x7d" ∧
    (strBytes (buildPayload "Arduino" [("Temp", render (mkRat 47 2))])).length =
      (buildPayload "Arduino" [("Temp", render (mkRat 47 2))]).length ∧
    frameFor (buildPayload "Arduino" [("Temp", render (mkRat 47 2))]) =
      some (txtHeaderBytes ++
        [(buildPayload "Arduino" [("Temp", render (mkRat 47 2))]).length, 0, 0, 0, 0, 0, 0, 0] ++
        strBytes (buildPayload "Arduino" [("Temp", render (mkRat 47 2))])) := by
  refine ⟨by decide, by decide, by decide⟩

/-- C5: for every payload length below 256 the 8-byte length field is the
length itself followed by seven zero bytes. -/
theorem C5_length_field_low (L : Nat) (h : L < 256) :
    lengthFieldBytes L = some [L, 0, 0, 0, 0, 0, 0, 0] := by
  rw [lengthField_spec L (by omega)]
  congr 1
  simp [Nat.mod_eq_of_lt h, Nat.div_eq_of_lt h]

/-- C5 witness: the length field for the concrete length 42. -/
theorem C5_length_field_low_witness :
    (42 < 256) ∧ lengthFieldBytes 42 = some [42, 0, 0, 0, 0, 0, 0, 0] :=
  ⟨by decide, C5_length_field_low 42 (by decide)⟩

/-- C6: for every payload length L with 256 ≤ L < 65536 the length field is
`[L % 256, L / 256]` followed by six zero bytes, and decoding
`firstByte + 256 * secondByte` recovers L exactly. -/
theorem C6_length_field_two_bytes (L : Nat) (_h1 : 256 ≤ L) (h2 : L < 65536) :
    lengthFieldBytes L = some [L % 256, L / 256, 0, 0, 0, 0, 0, 0] ∧
    L % 256 + 256 * (L / 256) = L :=
  ⟨lengthField_spec L h2, by omega⟩

/-- C6 witness: the length field for the concrete length 1000. -/
theorem C6_length_field_two_bytes_witness :
    (256 ≤ 1000) ∧ (1000 < 65536) ∧
    (lengthFieldBytes 1000 = some [1000 % 256, 1000 / 256, 0, 0, 0, 0, 0, 0] ∧
     1000 % 256 + 256 * (1000 / 256) = 1000) :=
  ⟨by decide, by decide, C6_length_field_two_bytes 1000 (by decide) (by decide)⟩

/-- C7: round-trip — for every batch below the ceiling (connect succeeding,
and the byte after `txtHeader` being zero so the preamble is the intended five
bytes), decoding the length field at offsets 5 and 6 of the written bytes
yields the declared length, the bytes after offset 13 are exactly the
serialized payload (nothing more — no terminator is appended), reading the
decoded number of bytes there returns the payload unchanged, and the declared
length equals the number of payload bytes written. -/
theorem C7_roundtrip (r : Readings) (net : Net) (fuel : Nat)
    (hc : net.connectOk = true) (hmem : net.afterHeaderMem.head? = some 0)
    (hL : payloadLenght r < 65536) :
    ((writtenBytes (zabbix_sender r net fuel).2).drop 5).headD 0 +
        256 * (((writtenBytes (zabbix_sender r net fuel).2).drop 6).headD 0) =
      payloadLenght r ∧
    (writtenBytes (zabbix_sender r net fuel).2).drop 13 = strBytes (zabbixPayload r) ∧
    ((writtenBytes (zabbix_sender r net fuel).2).drop 13).take
        (((writtenBytes (zabbix_sender r net fuel).2).drop 5).headD 0 +
          256 * (((writtenBytes (zabbix_sender r net fuel).2).drop 6).headD 0)) =
      strBytes (zabbixPayload r) ∧
    (strBytes (zabbixPayload r)).length = payloadLenght r := by
  obtain ⟨t, ht⟩ : ∃ t, net.afterHeaderMem = 0 :: t := by
    cases hm : net.afterHeaderMem with
    | nil => rw [hm] at hmem; simp at hmem
    | cons x xs =>
      rw [hm] at hmem
      simp at hmem
      exact ⟨xs, by rw [hmem]⟩
  have hw : writtenBytes (zabbix_sender r net fuel).2 =
      txtHeaderBytes ++
        [payloadLenght r % 256, payloadLenght r / 256, 0, 0, 0, 0, 0, 0] ++
        strBytes (zabbixPayload r) := by
    rw [connected_run r net fuel hc hL]
    cases hA : awaitResponse net.clock net.availableAt (net.clock 0) fuel 0 with
    | none =>
      simp [writtenBytes_evFrame, ht, cString_txtHeader, zabbixPayload, strBytes_append,
        List.append_assoc]
    | some p =>
      obtain ⟨b, k⟩ := p
      cases b <;>
        simp [writtenBytes_append, writtenBytes, writtenBytes_evFrame, ht, cString_txtHeader,
          zabbixPayload, strBytes_append, List.append_assoc]
  have hlen : (strBytes (zabbixPayload r)).length = payloadLenght r := by
    rw [strBytes_length, ← payloadLenght_eq_length]
  have hdec : payloadLenght r % 256 + 256 * (payloadLenght r / 256) = payloadLenght r := by
    omega
  have hd5 : ((txtHeaderBytes ++
      [payloadLenght r % 256, payloadLenght r / 256, 0, 0, 0, 0, 0, 0] ++
      strBytes (zabbixPayload r)).drop 5).headD 0 = payloadLenght r % 256 := by
    simp [txtHeaderBytes]
  have hd6 : ((txtHeaderBytes ++
      [payloadLenght r % 256, payloadLenght r / 256, 0, 0, 0, 0, 0, 0] ++
      strBytes (zabbixPayload r)).drop 6).headD 0 = payloadLenght r / 256 := by
    simp [txtHeaderBytes]
  have hd13 : (txtHeaderBytes ++
      [payloadLenght r % 256, payloadLenght r / 256, 0, 0, 0, 0, 0, 0] ++
      strBytes (zabbixPayload r)).drop 13 = strBytes (zabbixPayload r) := by
    simp [txtHeaderBytes]
  rw [hw, hd5, hd6, hd13]
  refine ⟨hdec, rfl, ?_, hlen⟩
  rw [hdec, ← hlen, List.take_length]

/-- C7 witness: the round-trip at the concrete readings `r0` in environment
`netA` with fuel 1. -/
theorem C7_roundtrip_witness :
    netA.connectOk = true ∧ netA.afterHeaderMem.head? = some 0 ∧ payloadLenght r0 < 65536 ∧
    (((writtenBytes (zabbix_sender r0 netA 1).2).drop 5).headD 0 +
        256 * (((writtenBytes (zabbix_sender r0 netA 1).2).drop 6).headD 0) =
      payloadLenght r0 ∧
    (writtenBytes (zabbix_sender r0 netA 1).2).drop 13 = strBytes (zabbixPayload r0) ∧
    ((writtenBytes (zabbix_sender r0 netA 1).2).drop 13).take
        (((writtenBytes (zabbix_sender r0 netA 1).2).drop 5).headD 0 +
          256 * (((writtenBytes (zabbix_sender r0 netA 1).2).drop 6).headD 0)) =
      strBytes (zabbixPayload r0) ∧
    (strBytes (zabbixPayload r0)).length = payloadLenght r0) :=
  ⟨rfl, rfl, by decide, C7_roundtrip r0 netA 1 rfl rfl (by decide)⟩

/-- C8: if the peer never makes data available (and the wait loop terminates
at all within its fuel), the call reports `timedOut`, the deciding `millis()`
reading strictly exceeds the entry reading plus `ResponseTimeout` (10000 ms) —
so the timeout fires no earlier than the configured timeout — and the trace
ends with the close event. -/
theorem C8_timeout (r : Readings) (net : Net) (fuel : Nat)
    (hc : net.connectOk = true) (hL : payloadLenght r < 65536)
    (hav : ∀ i, net.availableAt i = 0)
    (hterm : (zabbix_sender r net fuel).1 ≠ Outcome.stuck) :
    (zabbix_sender r net fuel).1 = Outcome.timedOut ∧
    ((zabbix_sender r net fuel).2).getLast? = some Ev.close ∧
    ∃ k, awaitResponse net.clock net.availableAt (net.clock 0) fuel 0 = some (true, k) ∧
      net.clock 0 + ResponseTimeout < net.clock k := by
  have hrun := connected_run r net fuel hc hL
  cases hA : awaitResponse net.clock net.availableAt (net.clock 0) fuel 0 with
  | none =>
    rw [hA] at hrun
    rw [hrun] at hterm
    simp at hterm
  | some p =>
    obtain ⟨b, k⟩ := p
    obtain ⟨hb, hlt⟩ :=
      awaitResponse_all_zero net.clock net.availableAt (net.clock 0) hav fuel 0 b k hA
    subst hb
    rw [hA] at hrun
    rw [hrun]
    refine ⟨rfl, ?_, k, rfl, by omega⟩
    · simp [List.getLast?_concat]

/-- C8 witness: the timeout behaviour at the concrete readings `r0` in the
silent-peer environment `netT` (clock advancing 20000 ms per call, fuel 2). -/
theorem C8_timeout_witness :
    netT.connectOk = true ∧ payloadLenght r0 < 65536 ∧
    ((zabbix_sender r0 netT 2).1 = Outcome.timedOut ∧
     ((zabbix_sender r0 netT 2).2).getLast? = some Ev.close ∧
     ∃ k, awaitResponse netT.clock netT.availableAt (netT.clock 0) 2 0 = some (true, k) ∧
       netT.clock 0 + ResponseTimeout < netT.clock k) :=
  ⟨rfl, by decide, C8_timeout r0 netT 2 rfl (by decide) (fun _ => rfl) (by decide)⟩

/-- C9: `txtHeader` is a five-element char array with no NUL terminator, so
`client.print` scans past it: when the adjacent memory byte is nonzero (here
65) the bytes written before the length field are the five preamble bytes plus
that garbage byte — not exactly the 5-byte preamble the claim states.  When a
zero byte happens to follow, exactly the preamble is written (the intended
behaviour). -/
theorem C9_preamble_overread :
    cStringBytes (txtHeaderBytes ++ [65, 0]) = txtHeaderBytes ++ [65] ∧
    txtHeaderBytes ++ [65] ≠ txtHeaderBytes ∧
    (writtenBytes (zabbix_sender r0 netG 1).2).take 6 = txtHeaderBytes ++ [65] ∧
    cStringBytes (txtHeaderBytes ++ [0]) = txtHeaderBytes := by
  refine ⟨by decide, by decide, by decide, by decide⟩

/-- C10: for all rational sensor readings, the payload is the builder applied
to exactly four items — humidity, pressure, altitude, temperature, in that
fixed order, all with the host `clientHostName` — whose value strings are the
two-decimal rendering of the readings; and the rendering maps 23.5 to
`"23.50"`. -/
theorem C10_four_items_fixed_order (t h p a : ℚ) :
    zabbixPayload ⟨render t, render h, render p, render a⟩ =
      buildPayload clientHostName
        [(Gybmep280HumidityItemName, render h),
         (Gybmep280PressureItemName, render p),
         (Gybmep280AltitudeItemName, render a),
         (Gybmep280temperatureItemName, render t)] ∧
    ([(Gybmep280HumidityItemName, render h),
      (Gybmep280PressureItemName, render p),
      (Gybmep280AltitudeItemName, render a),
      (Gybmep280temperatureItemName, render t)].length = 4) ∧
    render (mkRat 47 2) = "23.50" :=
  ⟨zabbixPayload_eq_buildPayload _, rfl, by decide⟩

end GyBmeP280ToZabbix
